import Mathlib

/-!
# HyperTrack — verification of the copy-trading core

Shallow embedding of the HyperTrack repository (wallet tracker, follow
decision engine, execution retry layer) and proofs about the claims of its
specification.  Decimal values are modelled as rationals (`ℚ`); Python
exceptions as `Except String`; the PostgreSQL store as explicit record
lists.  Fields of the Python dataclasses that no modelled code path reads
(timestamps, raw diagnostic payloads) are omitted.
-/

set_option maxRecDepth 10000

deriving instance DecidableEq for Except

namespace HyperTrack

/-! ## Data model (src/core/events.py, src/core/lighter_trader.py) -/

/-- `EventType` enum from `core/events.py`. -/
inductive EventType where
  | OPEN | CLOSE | INCREASE | DECREASE | FLIP | UNKNOWN
deriving DecidableEq, Repr

/-- `Side` enum from `core/events.py`. -/
inductive Side where
  | LONG | SHORT
deriving DecidableEq, Repr

/-- `OrderSide` enum from `core/lighter_trader.py`. -/
inductive OrderSide where
  | BUY | SELL
deriving DecidableEq, Repr

/-- `PositionEvent` dataclass from `core/events.py` (timestamp and
`raw_data` omitted: no modelled code path reads them). -/
structure PositionEvent where
  event_type : EventType
  symbol : String
  side : Side
  size : ℚ
  price : ℚ
  wallet_address : String
deriving DecidableEq, Repr

/-! ## Wallet state tracker (src/core/hyperliquid_tracker.py) -/

/-- The fields of a Hyperliquid per-symbol position dict that
`_compare_position` reads: `szi` (signed size) and `entryPx`, already
parsed to `Decimal` as the source does with `Decimal(str(...))`. -/
structure HLPos where
  szi : ℚ
  entryPx : ℚ
deriving DecidableEq, Repr

/-- `Decimal(str(pos.get("szi", "0"))) if pos else Decimal("0")`. -/
def sziOf : Option HLPos → ℚ
  | none => 0
  | some p => p.szi

/-- `Decimal(str(new_pos.get("entryPx", "0"))) if new_pos else Decimal("0")`. -/
def entryPxOf : Option HLPos → ℚ
  | none => 0
  | some p => p.entryPx

/-- `HyperliquidTracker._determine_event_type` (lines 240–266), translated
clause by clause in source order. -/
def determine_event_type (old_size new_size : ℚ) : EventType :=
  if old_size = 0 ∧ new_size ≠ 0 then EventType.OPEN
  else if old_size ≠ 0 ∧ new_size = 0 then EventType.CLOSE
  else if (old_size > 0 ∧ new_size < 0) ∨ (old_size < 0 ∧ new_size > 0) then EventType.FLIP
  else if |new_size| > |old_size| then EventType.INCREASE
  else if |new_size| < |old_size| then EventType.DECREASE
  else EventType.UNKNOWN

/-- `HyperliquidTracker._compare_position` (lines 195–238): returns `none`
when the signed size did not change, otherwise builds the event with the
side taken from the sign of the new size (falling back to the sign of the
old size) and the absolute new size. -/
def compare_position (symbol : String) (old_pos new_pos : Option HLPos)
    (wallet_address : String) : Option PositionEvent :=
  let old_size := sziOf old_pos
  let new_size := sziOf new_pos
  if old_size = new_size then none
  else
    let new_entry_price := entryPxOf new_pos
    let side :=
      if new_size > 0 then Side.LONG
      else if new_size < 0 then Side.SHORT
      else if old_size > 0 then Side.LONG else Side.SHORT
    let event_type := determine_event_type old_size new_size
    some ⟨event_type, symbol, side, |new_size|, new_entry_price, wallet_address⟩

/-- The classification table exactly as the specification states it
(§4.1): a function of sign(old), sign(new) and |old| vs |new| alone.
This definition follows the spec words, to be compared with the
source-derived `determine_event_type`. -/
def specClassify (old new : ℚ) : EventType :=
  if old = 0 ∧ new ≠ 0 then EventType.OPEN
  else if old ≠ 0 ∧ new = 0 then EventType.CLOSE
  else if old ≠ 0 ∧ new ≠ 0 ∧ ¬ (0 < old ↔ 0 < new) then EventType.FLIP
  else if (0 < old ↔ 0 < new) ∧ |new| > |old| then EventType.INCREASE
  else if (0 < old ↔ 0 < new) ∧ |new| < |old| then EventType.DECREASE
  else EventType.UNKNOWN

/-- The event side as the specification states it: sign of `new` when
nonzero, else sign of `old`. -/
def specSide (old new : ℚ) : Side :=
  if new ≠ 0 then (if 0 < new then Side.LONG else Side.SHORT)
  else (if 0 < old then Side.LONG else Side.SHORT)

/-! ## Python string primitives

The Lean core `String.toUpper`, `String.toLower`, `String.replace` and
`String.take` are compiled by well-founded recursion and do not reduce in
the kernel; the Python `str` operations the source uses are therefore
modelled directly, structurally, over the character list.  All strings
the system manipulates (addresses, symbols, sides) are ASCII. -/

/-- ASCII branch of Python `str.upper` for one character. -/
def pyCharUpper (c : Char) : Char :=
  if 97 ≤ c.toNat ∧ c.toNat ≤ 122 then Char.ofNat (c.toNat - 32) else c

/-- ASCII branch of Python `str.lower` for one character. -/
def pyCharLower (c : Char) : Char :=
  if 65 ≤ c.toNat ∧ c.toNat ≤ 90 then Char.ofNat (c.toNat + 32) else c

/-- Python `str.upper`. -/
def pyUpper (s : String) : String := ⟨s.data.map pyCharUpper⟩

/-- Python `str.lower`. -/
def pyLower (s : String) : String := ⟨s.data.map pyCharLower⟩

/-- Python `s[:n]`. -/
def pyTake (s : String) (n : Nat) : String := ⟨s.data.take n⟩

/-- Python `str.replace` on character lists: every non-overlapping
occurrence of the (non-empty) pattern, scanned left to right.  The fuel
starts at the list length, which bounds the number of steps. -/
def pyReplaceFuel (pat repl : List Char) : Nat → List Char → List Char
  | 0, l => l
  | _ + 1, [] => []
  | fuel + 1, c :: rest =>
    if pat.isPrefixOf (c :: rest) then
      repl ++ pyReplaceFuel pat repl fuel (List.drop (pat.length - 1) rest)
    else c :: pyReplaceFuel pat repl fuel rest

/-- Python `s.replace(pat, repl)` (for non-empty `pat`). -/
def pyReplace (s pat repl : String) : String :=
  ⟨pyReplaceFuel pat.data repl.data s.data.length s.data⟩

/-! ## Execution client (src/core/lighter_trader.py) -/

/-- `OrderResult` dataclass from `core/lighter_trader.py`. -/
structure OrderResult where
  success : Bool
  order_id : Option String := none
  tx_hash : Option String := none
  error : Option String := none
deriving DecidableEq, Repr

/-- `Position` dataclass from `core/lighter_trader.py` (fields the engine
reads: symbol, side string, size; the others are not consulted by any
modelled code path). -/
structure LighterPosition where
  symbol : String
  side : String
  size : ℚ
deriving DecidableEq, Repr

/-- `AccountInfo` dataclass from `core/lighter_trader.py`
(`account_index` omitted: it merely echoes a constructor argument). -/
structure AccountInfo where
  collateral : ℚ
  available_balance : ℚ
  total_position_value : ℚ
  unrealized_pnl : ℚ
deriving DecidableEq, Repr

/-- `LighterTrader.MARKET_INDEX` (lines 74–78). -/
def MARKET_INDEX : List (String × Nat) := [("BTC", 0), ("ETH", 1)]

/-- `__init__` default `max_retries` (line 86). -/
def default_max_retries : Nat := 5

/-- `__init__` default `retry_delay` in seconds (line 87). -/
def default_retry_delay : ℚ := 3

/-- The symbol cleaning done by `LighterTrader._get_market_index`
(line 289): upper-case, then `str.replace` of the three substrings —
`str.replace` removes every occurrence, not only a suffix. -/
def cleanSymbol (symbol : String) : String :=
  pyReplace (pyReplace (pyReplace (pyUpper symbol) "-PERP" "") "/USDC" "") "-USD" ""

/-- `LighterTrader._get_market_index` (lines 286–294): looks the cleaned
symbol up in `MARKET_INDEX`, raising `ValueError` on a miss. -/
def get_market_index (symbol : String) : Except String Nat :=
  match (MARKET_INDEX.find? (fun kv => kv.1 == cleanSymbol symbol)) with
  | some kv => .ok kv.2
  | none => .error ("未知的交易對: " ++ symbol)

/-- `raise last_error` where `last_error` may still be `None`
(in Python, `raise None` is itself a `TypeError`). -/
def pyRaise : Option String → String
  | some e => e
  | none => "TypeError: exceptions must derive from BaseException"

/-- The loop of `LighterTrader._retry_operation` (lines 146–167),
instrumented with the number of times the operation was invoked.
`op attempt` is the outcome of the `attempt`-th invocation (attempts are
numbered from 1 as in the source `range(1, max_retries + 1)`). -/
def retryOperationAux {α : Type} (op : Nat → Except String α) :
    Nat → Nat → Option String → Except String α × Nat
  | _, 0, last_error => (.error (pyRaise last_error), 0)
  | attempt, remaining + 1, _ =>
    match op attempt with
    | .ok v => (.ok v, 1)
    | .error e =>
      let rest := retryOperationAux op (attempt + 1) remaining (some e)
      (rest.1, rest.2 + 1)

/-- `LighterTrader._retry_operation`: result after up to `max_retries`
attempts; the error of the final attempt is re-raised when all fail. -/
def retry_operation {α : Type} (op : Nat → Except String α)
    (max_retries : Nat) : Except String α :=
  (retryOperationAux op 1 max_retries none).1

/-- Number of invocations `_retry_operation` performs. -/
def retryAttemptCount {α : Type} (op : Nat → Except String α)
    (max_retries : Nat) : Nat :=
  (retryOperationAux op 1 max_retries none).2

/-- One order-book level; `price` is the value the source obtains with
`Decimal(str(order.price).replace(".", ""))`. -/
structure OBOrder where
  price : ℚ
deriving DecidableEq, Repr

/-- Order-book reply used by `get_market_price`. -/
structure Orderbook where
  bids : List OBOrder
  asks : List OBOrder
deriving DecidableEq, Repr

/-- A venue position record as returned by the account query; fields the
source reads in `get_account_info` (optional as in the SDK reply). -/
structure VenuePos where
  position_value : Option ℚ
  unrealized_pnl : Option ℚ
deriving DecidableEq, Repr

/-- One account record of the account-query reply. -/
structure AccountRec where
  collateral : Option ℚ
  positions : List VenuePos
deriving DecidableEq, Repr

/-- The account-query reply (`result.accounts`). -/
structure AccountsResult where
  accounts : List AccountRec
deriving DecidableEq, Repr

/-- Reply of `signer.create_market_order`: the source unpacks
`(created_order, response, error)` and reads `response.code`,
`response.tx_hash` and `error`. -/
structure SignerResponse where
  code : Nat
  tx_hash : Option String
deriving DecidableEq, Repr

structure CreateOrderRet where
  error : Option String
  response : Option SignerResponse
deriving DecidableEq, Repr

/-- Remote-venue oracle: the outcome of each raw remote call, per retry
attempt (first argument of `orderbookAttempts` is the market index). -/
structure VenueEnv where
  accountAttempts : Nat → Except String AccountsResult
  orderbookAttempts : Nat → Nat → Except String Orderbook
  createOrderAttempts : Nat → Except String CreateOrderRet

/-- Python truthiness of an optional Decimal (`None` and `0` are falsy). -/
def truthyQ : Option ℚ → Bool
  | none => false
  | some v => v != 0

/-- Python truthiness of an optional string (`None` and `""` are falsy). -/
def truthyS : Option String → Bool
  | none => false
  | some s => s != ""

/-- `str(x)` of an optional value interpolated into an f-string:
`None` prints as `"None"`. -/
def optStr : Option String → String
  | none => "None"
  | some s => s

/-- `LighterTrader.get_market_price` (lines 296–333).  An unknown symbol
raises `ValueError` inside the `try`, and an exhausted retry raises the
last error; both are caught and turned into `None`.  The mid price is the
bid/ask average, with Python truthiness on the two optional best levels. -/
def get_market_price (venv : VenueEnv) (max_retries : Nat)
    (symbol : String) : Option ℚ :=
  match get_market_index symbol with
  | .error _ => none
  | .ok market_index =>
    match retry_operation (venv.orderbookAttempts market_index) max_retries with
    | .error _ => none
    | .ok orderbook =>
      let best_bid := (orderbook.bids.head?).map (fun o => o.price)
      let best_ask := (orderbook.asks.head?).map (fun o => o.price)
      if truthyQ best_bid && truthyQ best_ask then
        some ((best_bid.getD 0 + best_ask.getD 0) / 2)
      else if truthyQ best_bid then best_bid
      else if truthyQ best_ask then best_ask
      else none

/-- `int()` applied to a non-negative or truncation-toward-zero Decimal:
`Int` division of numerator by denominator truncates toward zero. -/
def pyInt (q : ℚ) : Int := q.num / (q.den : Int)

/-- `LighterTrader.place_market_order` (lines 335–416).  The client order
counter is the `_order_counter` state; it is bumped by
`_generate_client_order_index` only after the market-index lookup
succeeded.  Every failure path is caught by the enclosing `try` and
produces `OrderResult(success=False, error=...)`. -/
def place_market_order (venv : VenueEnv) (max_retries : Nat)
    (order_counter : Nat) (symbol : String) (side : OrderSide) (size : ℚ)
    (max_slippage : ℚ := 1/100) : OrderResult × Nat :=
  match get_market_index symbol with
  | .error m => (⟨false, none, none, some m⟩, order_counter)
  | .ok _market_index =>
    let client_order_index := order_counter + 1
    let _base_amount := pyInt (size * 100000000)
    match get_market_price venv max_retries symbol with
    | none => (⟨false, none, none, some "無法獲取當前價格"⟩, client_order_index)
    | some current_price =>
      let is_ask := side = OrderSide.SELL
      let _execution_price :=
        if is_ask then pyInt (current_price * (1 - max_slippage))
        else pyInt (current_price * (1 + max_slippage))
      match retry_operation venv.createOrderAttempts max_retries with
      | .error m => (⟨false, none, none, some m⟩, client_order_index)
      | .ok ret =>
        if truthyS ret.error then
          (⟨false, none, none, ret.error⟩, client_order_index)
        else
          match ret.response with
          | some response =>
            if response.code = 200 then
              (⟨true, some (toString client_order_index), response.tx_hash, none⟩,
               client_order_index)
            else
              (⟨false, none, none, some "下單響應異常"⟩, client_order_index)
          | none => (⟨false, none, none, some "下單響應異常"⟩, client_order_index)

/-- `LighterTrader.get_account_info` (lines 169–218): retries the account
query; on any exception returns `None`; otherwise parses the first
account record, with `account.collateral or "0"` and Python-truthy
guards on the per-position optional fields. -/
def get_account_info (venv : VenueEnv) (max_retries : Nat) : Option AccountInfo :=
  match retry_operation venv.accountAttempts max_retries with
  | .error _ => none
  | .ok result =>
    match result.accounts with
    | [] => none
    | account :: _ =>
      let collateral := account.collateral.getD 0
      let total_position_value := account.positions.foldl
        (fun acc pos => if truthyQ pos.position_value then acc + pos.position_value.getD 0 else acc) 0
      let unrealized_pnl := account.positions.foldl
        (fun acc pos => if truthyQ pos.unrealized_pnl then acc + pos.unrealized_pnl.getD 0 else acc) 0
      let available_balance := collateral + unrealized_pnl
      some ⟨collateral, available_balance, total_position_value, unrealized_pnl⟩

/-- `LighterTrader.get_balance` (lines 220–230): the available balance,
or `Decimal("0")` when the account query failed. -/
def get_balance (venv : VenueEnv) (max_retries : Nat) : ℚ :=
  match get_account_info venv max_retries with
  | some account_info => account_info.available_balance
  | none => 0

/-! ## Persistent store (src/database/db_manager.py)

The `wallets` and `positions` tables, with the columns the engine reads.
`add_wallet` lower-cases addresses and `add_position` upper-cases symbols
and lower-cases source wallets before writing, so stored rows carry the
normalised forms. -/

/-- A `wallets` row (columns consulted by the engine: `address`,
`enabled`, `max_position_usd`;  `max_position_usd` is optional since the
engine guards it with `or default`). -/
structure WalletRec where
  address : String
  enabled : Bool
  max_position_usd : Option ℚ
deriving DecidableEq, Repr

/-- A `positions` row (`MirroredPosition`). -/
structure PositionRec where
  symbol : String
  side : String
  size : ℚ
  entry_price : ℚ
  source_wallet : String
deriving DecidableEq, Repr

/-- Store state: the two tables, rows in insertion order. -/
structure Db where
  wallets : List WalletRec
  positions : List PositionRec
deriving DecidableEq, Repr

/-- `DatabaseManager.get_wallet` (lines 160–180):
`SELECT * FROM wallets WHERE address = lower(param)`, first row. -/
def Db.get_wallet (db : Db) (address : String) : Option WalletRec :=
  db.wallets.find? (fun w => w.address == pyLower address)

/-- `DatabaseManager.get_position` (lines 313–333):
`SELECT * FROM positions WHERE symbol = upper(param)`, first row. -/
def Db.get_position (db : Db) (symbol : String) : Option PositionRec :=
  db.positions.find? (fun p => p.symbol == pyUpper symbol)

/-- `DatabaseManager.add_position` (lines 241–285): upsert keyed on
`(symbol, source_wallet)` (the `ON CONFLICT` clause), writing the
upper-cased symbol, upper-cased side and lower-cased source wallet. -/
def Db.add_position (db : Db) (symbol side : String) (size entry_price : ℚ)
    (source_wallet : String) : Db :=
  let sU := pyUpper symbol
  let wL := pyLower source_wallet
  if db.positions.any (fun p => p.symbol == sU && p.source_wallet == wL) then
    { db with positions := db.positions.map (fun p =>
        if p.symbol == sU && p.source_wallet == wL then
          { p with side := pyUpper side, size := size, entry_price := entry_price }
        else p) }
  else
    { db with positions := db.positions ++ [⟨sU, side.toUpper, size, entry_price, wL⟩] }

/-- `DatabaseManager.remove_position` (lines 287–311):
`DELETE FROM positions WHERE symbol = upper(s) AND source_wallet = lower(w)`. -/
def Db.remove_position (db : Db) (symbol source_wallet : String) : Db :=
  { db with positions := db.positions.filter (fun p =>
      ¬ (p.symbol == pyUpper symbol && p.source_wallet == pyLower source_wallet)) }

/-- Store failure injection: every `DatabaseManager` method re-raises its
driver exceptions, so when `fail = some m` each store call raises `m`;
`fail = none` models a healthy database. -/
structure DbEnv where
  fail : Option String
deriving Repr

/-! ## Follow decision engine (src/core/strategy_engine.py) -/

/-- `FollowDecision` enum. -/
inductive FollowDecision where
  | FOLLOW | SKIP | REJECT | ERROR
deriving DecidableEq, Repr

/-- `FollowResult` dataclass. -/
structure FollowResult where
  decision : FollowDecision
  reason : String
  follow_size : Option ℚ := none
  follow_side : Option OrderSide := none
  order_result : Option OrderResult := none
deriving DecidableEq, Repr

/-- Engine configuration from `StrategyEngine.__init__`:
`default_max_position_usd` (default 1000) and the balance cache TTL
`_balance_cache_seconds` (60). -/
structure EngineCfg where
  default_max_position_usd : ℚ := 1000
  balance_cache_seconds : ℚ := 60
deriving Repr

/-- The engine's process-local balance cache
(`_my_balance`, `_balance_updated_at`). -/
structure BalCache where
  my_balance : ℚ
  updated_at : ℚ
deriving DecidableEq, Repr

/-- Engine-visible state: the store plus the balance cache. -/
structure EngineState where
  db : Db
  cache : BalCache
deriving DecidableEq, Repr

/-- The trader as the engine sees it: each awaited call yields either a
value or a raised exception.  (`get_market_price`, `get_positions`,
`place_market_order` and `close_position` catch internally in
`lighter_trader.py` and so never raise there, but the engine guards every
await with `try`, which the `Except` codomain makes explicit.) -/
structure TraderEnv where
  get_balance : Except String ℚ
  get_positions : Except String (List LighterPosition)
  get_market_price : String → Except String (Option ℚ)
  place_market_order : String → OrderSide → ℚ → Except String OrderResult
  close_position : String → Except String OrderResult

/-- `StrategyEngine._get_my_balance` (lines 467–481) as a step on the
cache: refresh when the cache is older than the TTL; a raised
`get_balance` is caught and the previous value returned with the cache
untouched. -/
def getMyBalanceStep (cache_seconds : ℚ) (gb : Except String ℚ)
    (now : ℚ) (c : BalCache) : ℚ × BalCache :=
  if cache_seconds < now - c.updated_at then
    match gb with
    | .ok b => (b, ⟨b, now⟩)
    | .error _ => (c.my_balance, c)
  else (c.my_balance, c)

/-- `_get_my_balance` composed with the concrete
`LighterTrader.get_balance`, which returns (never raises) `0` when the
remote account query failed. -/
def engine_refresh (venv : VenueEnv) (max_retries : Nat)
    (cache_seconds now : ℚ) (c : BalCache) : ℚ × BalCache :=
  getMyBalanceStep cache_seconds (.ok (get_balance venv max_retries)) now c

/-- `address[:10] + "..."` used in the engine's reason strings. -/
def addrShort (address : String) : String := pyTake address 10 ++ "..."

/-- `StrategyEngine.check_position_lock` (lines 171–205).  Reads the
position row for the symbol; same (case-insensitive) source wallet or no
row means unlocked, otherwise locked with a reason naming the holder. -/
def check_position_lock (denv : DbEnv) (db : Db) (symbol wallet_address : String) :
    Except String (Bool × String) :=
  match denv.fail with
  | some m => .error m
  | none =>
    match db.get_position symbol with
    | none => .ok (false, "")
    | some existing_position =>
      if pyLower existing_position.source_wallet = pyLower wallet_address then
        .ok (false, "")
      else
        .ok (true, symbol ++ " 已被其他錢包鎖定: " ++
          addrShort (pyLower existing_position.source_wallet))

/-- The balance read `my_balance = await self._get_my_balance()` performed
by `should_follow`, as a value-and-cache pair. -/
def engine_cached_balance (cfg : EngineCfg) (tenv : TraderEnv) (now : ℚ)
    (st : EngineState) : ℚ × BalCache :=
  getMyBalanceStep cfg.balance_cache_seconds tenv.get_balance now st.cache

/-- `StrategyEngine.should_follow` (lines 124–169): the four eligibility
checks in source order, threading the balance cache. -/
def should_follow (cfg : EngineCfg) (denv : DbEnv) (tenv : TraderEnv)
    (now : ℚ) (event : PositionEvent) (st : EngineState) :
    Except String (Bool × String) × EngineState :=
  match denv.fail with
  | some m => (.error m, st)
  | none =>
    match st.db.get_wallet event.wallet_address with
    | none => (.ok (false, "錢包未在追蹤列表中: " ++ addrShort event.wallet_address), st)
    | some wallet =>
      if ¬ wallet.enabled then
        (.ok (false, "錢包已禁用: " ++ addrShort event.wallet_address), st)
      else
        match check_position_lock denv st.db event.symbol event.wallet_address with
        | .error m => (.error m, st)
        | .ok (is_locked, lock_reason) =>
          if is_locked then (.ok (false, lock_reason), st)
          else
            if (engine_cached_balance cfg tenv now st).1 ≤ 0 then
              (.ok (false, "餘額不足"),
               { st with cache := (engine_cached_balance cfg tenv now st).2 })
            else if event.event_type = EventType.UNKNOWN then
              (.ok (false, "未知事件類型"),
               { st with cache := (engine_cached_balance cfg tenv now st).2 })
            else
              (.ok (true, "OK"),
               { st with cache := (engine_cached_balance cfg tenv now st).2 })

/-- `wallet.get("max_position_usd") or self.default_max_position_usd`:
Python `or` falls through on `None` and on `0`. -/
def effectiveMaxPosition (cfg : EngineCfg) (wallet : WalletRec) : ℚ :=
  match wallet.max_position_usd with
  | none => cfg.default_max_position_usd
  | some v => if v = 0 then cfg.default_max_position_usd else v

/-- `StrategyEngine.calculate_follow_size` (lines 333–373): cached
balance, wallet row (a missing row would make `wallet.get` an
`AttributeError` — `should_follow` has already ruled it out), fixed
`position_ratio = Decimal("0.1")`, capped at the per-wallet maximum. -/
def calculate_follow_size (cfg : EngineCfg) (denv : DbEnv) (tenv : TraderEnv)
    (now : ℚ) (event : PositionEvent) (st : EngineState) :
    Except String ℚ × EngineState :=
  let bal := getMyBalanceStep cfg.balance_cache_seconds tenv.get_balance now st.cache
  let st := { st with cache := bal.2 }
  let my_balance := bal.1
  if my_balance ≤ 0 then (.ok 0, st)
  else
    match denv.fail with
    | some m => (.error m, st)
    | none =>
      match st.db.get_wallet event.wallet_address with
      | none => (.error "AttributeError: NoneType object has no attribute get", st)
      | some wallet =>
        let max_position_usd := effectiveMaxPosition cfg wallet
        let follow_usd := my_balance * (1/10)
        let follow_usd := if follow_usd > max_position_usd then max_position_usd else follow_usd
        (.ok follow_usd, st)

/-- `StrategyEngine._calculate_close_params` (lines 245–262): first venue
position matching the symbol, closed on the opposite side; `(0, BUY)`
when none. -/
def calculate_close_params (tenv : TraderEnv) (event : PositionEvent)
    (st : EngineState) : Except String (ℚ × OrderSide) × EngineState :=
  match tenv.get_positions with
  | .error m => (.error m, st)
  | .ok my_positions =>
    match my_positions.find? (fun pos => pyUpper pos.symbol == pyUpper event.symbol) with
    | some pos =>
      if pos.side = "LONG" then (.ok (pos.size, OrderSide.SELL), st)
      else (.ok (pos.size, OrderSide.BUY), st)
    | none => (.ok (0, OrderSide.BUY), st)

/-- `StrategyEngine._calculate_open_params` (lines 264–291). -/
def calculate_open_params (cfg : EngineCfg) (denv : DbEnv) (tenv : TraderEnv)
    (now : ℚ) (event : PositionEvent) (st : EngineState) :
    Except String (ℚ × OrderSide) × EngineState :=
  match calculate_follow_size cfg denv tenv now event st with
  | (.error m, st) => (.error m, st)
  | (.ok follow_usd, st) =>
    if follow_usd ≤ 0 then (.ok (0, OrderSide.BUY), st)
    else
      match tenv.get_market_price event.symbol with
      | .error m => (.error m, st)
      | .ok price =>
        match price with
        | none => (.ok (0, OrderSide.BUY), st)
        | some p =>
          if p ≤ 0 then (.ok (0, OrderSide.BUY), st)
          else
            let follow_size := follow_usd / p
            let follow_side := if event.side = Side.LONG then OrderSide.BUY else OrderSide.SELL
            (.ok (follow_size, follow_side), st)

/-- `StrategyEngine._calculate_decrease_params` (lines 300–323): half of
the first matching venue position, on the opposite side. -/
def calculate_decrease_params (tenv : TraderEnv) (event : PositionEvent)
    (st : EngineState) : Except String (ℚ × OrderSide) × EngineState :=
  match tenv.get_positions with
  | .error m => (.error m, st)
  | .ok my_positions =>
    match my_positions.find? (fun pos => pyUpper pos.symbol == pyUpper event.symbol) with
    | some pos =>
      let reduce_size := pos.size * (1/2)
      if pos.side = "LONG" then (.ok (reduce_size, OrderSide.SELL), st)
      else (.ok (reduce_size, OrderSide.BUY), st)
    | none => (.ok (0, OrderSide.BUY), st)

/-- `StrategyEngine.calculate_follow_params` (lines 207–243); INCREASE
delegates to the open computation and FLIP to the close computation, as
`_calculate_increase_params` / `_calculate_flip_params` do. -/
def calculate_follow_params (cfg : EngineCfg) (denv : DbEnv) (tenv : TraderEnv)
    (now : ℚ) (event : PositionEvent) (st : EngineState) :
    Except String (ℚ × OrderSide) × EngineState :=
  match event.event_type with
  | EventType.CLOSE => calculate_close_params tenv event st
  | EventType.OPEN => calculate_open_params cfg denv tenv now event st
  | EventType.INCREASE => calculate_open_params cfg denv tenv now event st
  | EventType.DECREASE => calculate_decrease_params tenv event st
  | EventType.FLIP => calculate_close_params tenv event st
  | EventType.UNKNOWN => (.ok (0, OrderSide.BUY), st)

/-- Arity of `DatabaseManager.add_position`: five required parameters
besides `self` (db_manager.py lines 241–248). -/
def add_position_required_args : Nat := 5

/-- Arity of the call in `StrategyEngine._update_position_in_db`
(line 462): the single positional argument `position_data`. -/
def update_position_call_args : Nat := 1

/-- Whether Python argument binding succeeds for that call.  It does not:
one positional argument cannot bind five required parameters, so invoking
the coroutine function raises `TypeError` before its body runs. -/
def add_position_call_binds : Bool := update_position_call_args = add_position_required_args

/-- `StrategyEngine._update_position_in_db` (lines 438–465).  The whole
body sits in `try/except Exception`, so any raise leaves the store as it
was.  On the close path `remove_position(symbol, wallet)` is well-formed;
on the open path `add_position(position_data)` fails argument binding
(see `add_position_call_binds`), the `TypeError` is caught and logged,
and the store is not written. -/
def update_position_in_db (denv : DbEnv) (event : PositionEvent)
    (size : ℚ) (side : OrderSide) (is_close : Bool) (db : Db) : Db :=
  if is_close then
    match denv.fail with
    | some _ => db
    | none => db.remove_position event.symbol event.wallet_address
  else
    if add_position_call_binds then
      match denv.fail with
      | some _ => db
      | none =>
        db.add_position event.symbol
          (if side = OrderSide.BUY then "LONG" else "SHORT")
          size event.price event.wallet_address
    else db

/-- `StrategyEngine.execute_follow` (lines 375–436): closes for
CLOSE/FLIP, otherwise places a market order; on success updates the store
and returns FOLLOW, on a failed result returns ERROR with the order
error, and a raise from the awaited call is caught into ERROR. -/
def execute_follow (denv : DbEnv) (tenv : TraderEnv) (event : PositionEvent)
    (follow_size : ℚ) (follow_side : OrderSide) (st : EngineState) :
    FollowResult × EngineState :=
  match (if event.event_type = EventType.CLOSE ∨ event.event_type = EventType.FLIP
         then tenv.close_position event.symbol
         else tenv.place_market_order event.symbol follow_side follow_size) with
  | .error m => (⟨FollowDecision.ERROR, m, none, none, none⟩, st)
  | .ok order_result =>
    if order_result.success then
      (⟨FollowDecision.FOLLOW, "跟單成功", some follow_size, some follow_side,
        some order_result⟩,
       { st with
          db := update_position_in_db denv event follow_size follow_side
            (decide (event.event_type = EventType.CLOSE ∨
              event.event_type = EventType.FLIP)) st.db })
    else
      (⟨FollowDecision.ERROR, "下單失敗: " ++ optStr order_result.error,
        none, none, some order_result⟩, st)

/-- `StrategyEngine.on_wallet_event` (lines 77–122): eligibility, sizing,
execution; the enclosing `try/except` converts any raise into an ERROR
result carrying `str(e)`. -/
def on_wallet_event (cfg : EngineCfg) (denv : DbEnv) (tenv : TraderEnv)
    (now : ℚ) (event : PositionEvent) (st : EngineState) :
    FollowResult × EngineState :=
  match should_follow cfg denv tenv now event st with
  | (.error m, st) => (⟨FollowDecision.ERROR, m, none, none, none⟩, st)
  | (.ok (false, reason), st) => (⟨FollowDecision.SKIP, reason, none, none, none⟩, st)
  | (.ok (true, _), st) =>
    match calculate_follow_params cfg denv tenv now event st with
    | (.error m, st) => (⟨FollowDecision.ERROR, m, none, none, none⟩, st)
    | (.ok (follow_size, follow_side), st) =>
      if follow_size ≤ 0 then
        (⟨FollowDecision.SKIP, "計算後跟單數量為 0", none, none, none⟩, st)
      else execute_follow denv tenv event follow_size follow_side st

/-! ## Helper lemmas -/

/-- A string with a non-empty right part is non-empty. -/
theorem append_ne_empty_right (a b : String) (hb : b ≠ "") : a ++ b ≠ "" := by
  intro h
  apply hb
  apply String.ext
  have hd := congrArg String.data h
  rw [String.data_append] at hd
  have : b.data = [] := (List.append_eq_nil.mp hd).2
  simpa using this

/-- The engine's cap `if x > m then m else x` is `min x m`. -/
theorem cap_eq_min (x m : ℚ) : (if x > m then m else x) = min x m := by
  split
  · exact (min_eq_right (le_of_lt (by assumption))).symm
  · exact (min_eq_left (not_lt.mp (by assumption))).symm

/-- `_determine_event_type` computes exactly the specification's
classification table whenever the size changed. -/
theorem determine_eq_specClassify (old new : ℚ) (h : old ≠ new) :
    determine_event_type old new = specClassify old new := by
  rcases lt_trichotomy old 0 with h1 | h1 | h1 <;> rcases lt_trichotomy new 0 with h2 | h2 | h2
  · simp [determine_event_type, specClassify, ne_of_lt h1, ne_of_lt h2,
      not_lt.2 h1.le, not_lt.2 h2.le, h1, h2]
  · simp [determine_event_type, specClassify, ne_of_lt h1, h2,
      not_lt.2 h1.le, h1]
  · simp [determine_event_type, specClassify, ne_of_lt h1, ne_of_gt h2,
      not_lt.2 h1.le, not_lt.2 h2.le, h1, h2]
  · subst h1
    simp [determine_event_type, specClassify, ne_of_lt h2, not_lt.2 h2.le, h2]
  · exact absurd (h1.trans h2.symm) h
  · subst h1
    simp [determine_event_type, specClassify, ne_of_gt h2, h2]
  · simp [determine_event_type, specClassify, ne_of_gt h1, ne_of_lt h2,
      not_lt.2 h1.le, not_lt.2 h2.le, h1, h2]
  · subst h2
    simp [determine_event_type, specClassify, ne_of_gt h1, not_lt.2 h1.le, h1]
  · simp [determine_event_type, specClassify, ne_of_gt h1, ne_of_gt h2,
      not_lt.2 h1.le, not_lt.2 h2.le, h1, h2]

/-- The side computed by `_compare_position` is the specification's side
rule. -/
theorem side_eq_specSide (old new : ℚ) :
    (if new > 0 then Side.LONG
     else if new < 0 then Side.SHORT
     else if old > 0 then Side.LONG else Side.SHORT) = specSide old new := by
  rcases lt_trichotomy new 0 with h2 | h2 | h2
  · simp [specSide, ne_of_lt h2, not_lt.2 h2.le, h2]
  · subst h2
    simp [specSide]
  · simp [specSide, ne_of_gt h2, h2]

/-! ## C3 — tracker classification -/

/-- C3: for every pair of per-symbol snapshot positions, the tracker's
classification is the pure function of (sign old, sign new, |old| vs
|new|) stated in the spec table: no event when the signed size is
unchanged, and otherwise an event whose type follows the table, whose
side is the sign of the new size (falling back to the old one) and whose
size is the absolute new size. -/
theorem c3_tracker_classification (symbol wallet : String)
    (old_pos new_pos : Option HLPos) :
    (sziOf old_pos = sziOf new_pos →
      compare_position symbol old_pos new_pos wallet = none) ∧
    (sziOf old_pos ≠ sziOf new_pos →
      compare_position symbol old_pos new_pos wallet =
        some ⟨specClassify (sziOf old_pos) (sziOf new_pos), symbol,
              specSide (sziOf old_pos) (sziOf new_pos), |sziOf new_pos|,
              entryPxOf new_pos, wallet⟩) := by
  constructor
  · intro h
    simp [compare_position, h]
  · intro h
    simp only [compare_position, if_neg h]
    rw [determine_eq_specClassify _ _ h]
    rw [show (if sziOf new_pos > 0 then Side.LONG
        else if sziOf new_pos < 0 then Side.SHORT
        else if sziOf old_pos > 0 then Side.LONG else Side.SHORT) =
          specSide (sziOf old_pos) (sziOf new_pos) from
        side_eq_specSide _ _]

/-- Witness for C3 at the spec's own examples: `old=0, new=+5` gives
OPEN/LONG/size 5; `old=+5, new=-3` gives FLIP; `old=+5, new=+5` gives
no event. -/
theorem c3_tracker_classification_witness :
    compare_position "ETH" none (some ⟨5, 100⟩) "0xa" =
      some ⟨EventType.OPEN, "ETH", Side.LONG, 5, 100, "0xa"⟩ ∧
    (compare_position "ETH" (some ⟨5, 100⟩) (some ⟨-3, 90⟩) "0xa").map
        (fun e => e.event_type) = some EventType.FLIP ∧
    compare_position "ETH" (some ⟨5, 100⟩) (some ⟨5, 100⟩) "0xa" = none := by
  refine ⟨?_, ?_, ?_⟩
  · have h := (c3_tracker_classification "ETH" "0xa" none (some ⟨5, 100⟩)).2
      (by norm_num [sziOf])
    rw [h]
    norm_num [sziOf, entryPxOf, specClassify, specSide]
  · have h := (c3_tracker_classification "ETH" "0xa" (some ⟨5, 100⟩)
      (some ⟨-3, 90⟩)).2 (by norm_num [sziOf])
    rw [h]
    norm_num [sziOf, specClassify]
  · exact (c3_tracker_classification "ETH" "0xa" (some ⟨5, 100⟩)
      (some ⟨5, 100⟩)).1 rfl

/-! ## C5 — bounded retry -/

/-- When every attempt in the window fails, the retry loop performs all
of them and re-raises the error of the last one. -/
theorem retry_aux_all_fail {α : Type} (op : Nat → Except String α)
    (f : Nat → String) :
    ∀ (k a : Nat) (last : Option String), 1 ≤ k →
      (∀ i, a ≤ i → i < a + k → op i = .error (f i)) →
      retryOperationAux op a k last = (.error (f (a + k - 1)), k) := by
  intro k
  induction k with
  | zero => omega
  | succ n ih =>
    intro a last _ hall
    have ha : op a = .error (f a) := hall a le_rfl (by omega)
    match n, ih with
    | 0, _ =>
      simp [retryOperationAux, ha, pyRaise]
    | m + 1, ih =>
      have hrec := ih (a + 1) (some (f a)) (by omega)
        (fun i hi1 hi2 => hall i (by omega) (by omega))
      have harith : a + 1 + (m + 1) - 1 = a + (m + 1 + 1) - 1 := by omega
      rw [harith] at hrec
      have step : retryOperationAux op a (m + 1 + 1) last =
          ((retryOperationAux op (a + 1) (m + 1) (some (f a))).1,
           (retryOperationAux op (a + 1) (m + 1) (some (f a))).2 + 1) := by
        conv_lhs => rw [retryOperationAux]
        rw [ha]
      rw [step, hrec]

/-- C5: a wrapped remote call that fails on every attempt is attempted
exactly `max_retries` times and the last error is raised to the caller;
the constructor defaults are `max_retries = 5` and `retry_delay = 3`
seconds. -/
theorem c5_retry_bound {α : Type} (op : Nat → Except String α)
    (f : Nat → String) (N : Nat) (hN : 1 ≤ N)
    (hfail : ∀ i, 1 ≤ i → i ≤ N → op i = .error (f i)) :
    retry_operation op N = .error (f N) ∧ retryAttemptCount op N = N ∧
    default_max_retries = 5 ∧ default_retry_delay = 3 := by
  have h := retry_aux_all_fail op f N 1 none hN
    (fun i h1 h2 => hfail i h1 (by omega))
  have harith : 1 + N - 1 = N := by omega
  rw [harith] at h
  refine ⟨?_, ?_, rfl, rfl⟩
  · rw [retry_operation, h]
  · rw [retryAttemptCount, h]

/-- Witness for C5: an operation failing at every attempt with message
`toString i`, run with the default bound 5, makes exactly 5 attempts and
raises `"5"`. -/
theorem c5_retry_bound_witness :
    retry_operation (fun i => (.error (toString i) : Except String Unit)) 5 =
      .error "5" ∧
    retryAttemptCount (fun i => (.error (toString i) : Except String Unit)) 5 = 5 := by
  have h := c5_retry_bound (fun i => (.error (toString i) : Except String Unit))
    (fun i => toString i) 5 (by norm_num) (fun i h1 h2 => rfl)
  exact ⟨h.1, h.2.1⟩

/-! ## Concrete fixtures -/

/-- Engine configuration with the constructor defaults. -/
def cfg0 : EngineCfg := {}

/-- A healthy store connection. -/
def denvOk : DbEnv := ⟨none⟩

def walletA : WalletRec := ⟨"0xaa", true, none⟩

def walletB : WalletRec := ⟨"0xbb", true, none⟩

/-- Store with two tracked, enabled wallets and no mirrored position. -/
def dbAB : Db := ⟨[walletA, walletB], []⟩

def st0 : EngineState := ⟨dbAB, ⟨0, 0⟩⟩

/-- Trader whose every call succeeds: balance 10000, ETH price 2000,
order submission succeeds. -/
def tenvOkOrder : TraderEnv :=
  ⟨.ok 10000, .ok [], fun _ => .ok (some 2000),
   fun _ _ _ => .ok ⟨true, some "1", none, none⟩,
   fun _ => .ok ⟨true, none, none, none⟩⟩

def evOpenA : PositionEvent := ⟨EventType.OPEN, "ETH", Side.LONG, 5, 2000, "0xaa"⟩

def evOpenB : PositionEvent := ⟨EventType.OPEN, "ETH", Side.LONG, 3, 2000, "0xbb"⟩

def evCloseA : PositionEvent := ⟨EventType.CLOSE, "ETH", Side.LONG, 0, 2000, "0xaa"⟩

/-! ## C1 — store update after a successful follow (code bug) -/

/-- C1 at the failing input: an eligible OPEN event whose order
submission succeeds returns FOLLOW, but the store still holds no
`MirroredPosition` row — `_update_position_in_db` passes the single dict
`position_data` to `DatabaseManager.add_position`, which requires five
parameters, so the call raises `TypeError` which is caught and logged.
The third conjunct shows what the intended five-argument upsert would
have persisted. -/
theorem c1_successful_open_leaves_store_unchanged :
    (on_wallet_event cfg0 denvOk tenvOkOrder 100 evOpenA st0).1.decision =
      FollowDecision.FOLLOW ∧
    (on_wallet_event cfg0 denvOk tenvOkOrder 100 evOpenA st0).2.db.positions = [] ∧
    (st0.db.add_position evOpenA.symbol "LONG" (1/2) evOpenA.price
        evOpenA.wallet_address).positions = [⟨"ETH", "LONG", 1/2, 2000, "0xaa"⟩] := by
  with_unfolding_all decide

/-! ## C2 — symbol-lock mutual exclusion (code bug) -/

/-- C2 at the failing input: two successive OPEN events for the same
symbol from two different tracked, enabled wallets both end in FOLLOW,
and no `MirroredPosition` is ever persisted — because the upsert of C1's
bug never writes the row, the second wallet is never locked out. -/
theorem c2_second_wallet_not_locked_out :
    (on_wallet_event cfg0 denvOk tenvOkOrder 100 evOpenA st0).1.decision =
      FollowDecision.FOLLOW ∧
    (on_wallet_event cfg0 denvOk tenvOkOrder 100 evOpenB
        (on_wallet_event cfg0 denvOk tenvOkOrder 100 evOpenA st0).2).1.decision =
      FollowDecision.FOLLOW ∧
    (on_wallet_event cfg0 denvOk tenvOkOrder 100 evOpenB
        (on_wallet_event cfg0 denvOk tenvOkOrder 100 evOpenA st0).2).2.db.positions =
      [] := by
  with_unfolding_all decide

/-- Supporting observation: the lock logic itself is sound — when a
mirrored position row for the symbol IS persisted and held by wallet
`0xaa`, an event from `0xbb` is skipped with a reason naming the
holder. -/
theorem symbol_lock_blocks_when_position_persisted :
    (on_wallet_event cfg0 denvOk tenvOkOrder 100 evOpenB
        ⟨⟨[walletA, walletB], [⟨"ETH", "LONG", 1/2, 2000, "0xaa"⟩]⟩, ⟨0, 0⟩⟩).1 =
      ⟨FollowDecision.SKIP, "ETH 已被其他錢包鎖定: 0xaa...", none, none, none⟩ := by
  decide

/-! ## C4 — failed execution returns ERROR and leaves the store alone -/

/-- C4: whenever the invoked execution operation fails — either an
`OrderResult` with `success = False` or a raised exception — the engine
returns ERROR carrying the execution error and the engine state
(including every persisted `MirroredPosition`) is returned unchanged. -/
theorem c4_failed_execution_preserves_state (denv : DbEnv) (tenv : TraderEnv)
    (event : PositionEvent) (follow_size : ℚ) (follow_side : OrderSide)
    (st : EngineState) :
    (∀ m, (if event.event_type = EventType.CLOSE ∨ event.event_type = EventType.FLIP
           then tenv.close_position event.symbol
           else tenv.place_market_order event.symbol follow_side follow_size) =
        .error m →
      execute_follow denv tenv event follow_size follow_side st =
        (⟨FollowDecision.ERROR, m, none, none, none⟩, st)) ∧
    (∀ r, (if event.event_type = EventType.CLOSE ∨ event.event_type = EventType.FLIP
           then tenv.close_position event.symbol
           else tenv.place_market_order event.symbol follow_side follow_size) =
        .ok r → r.success = false →
      execute_follow denv tenv event follow_size follow_side st =
        (⟨FollowDecision.ERROR, "下單失敗: " ++ optStr r.error, none, none, some r⟩,
         st)) := by
  constructor
  · intro m hm
    simp only [execute_follow]
    rw [hm]
  · intro r hr hs
    simp only [execute_follow]
    rw [hr]
    simp [hs]

/-- Trader whose order submission fails (result failure for market
orders, raised exception for closes). -/
def tenvFailOrder : TraderEnv :=
  ⟨.ok 10000, .ok [], fun _ => .ok (some 2000),
   fun _ _ _ => .ok ⟨false, none, none, some "insufficient margin"⟩,
   fun _ => .error "boom"⟩

/-! ## C6 — OPEN/INCREASE sizing formula -/

/-- C6: for an OPEN or INCREASE event that reaches sizing with a healthy
store, a tracked wallet row, a positive cached balance, a positive
effective per-wallet maximum and a positive market price, the computed
notional is `min(balance × 0.1, per-wallet max or default)`, the follow
size is that notional divided by the mirror-venue price, and the follow
side matches the source wallet's resulting side. -/
theorem c6_open_sizing_formula (cfg : EngineCfg) (denv : DbEnv)
    (tenv : TraderEnv) (now : ℚ) (event : PositionEvent) (st : EngineState)
    (bal : ℚ) (cache2 : BalCache) (w : WalletRec) (p : ℚ)
    (hEt : event.event_type = EventType.OPEN ∨
           event.event_type = EventType.INCREASE)
    (hFail : denv.fail = none)
    (hBal : getMyBalanceStep cfg.balance_cache_seconds tenv.get_balance now
              st.cache = (bal, cache2))
    (hBalPos : 0 < bal)
    (hW : st.db.get_wallet event.wallet_address = some w)
    (hMax : 0 < effectiveMaxPosition cfg w)
    (hPrice : tenv.get_market_price event.symbol = .ok (some p))
    (hp : 0 < p) :
    calculate_follow_params cfg denv tenv now event st =
      (.ok (min (bal * (1/10)) (effectiveMaxPosition cfg w) / p,
            if event.side = Side.LONG then OrderSide.BUY else OrderSide.SELL),
       { st with cache := cache2 }) := by
  have husd : 0 < min (bal * (1/10)) (effectiveMaxPosition cfg w) :=
    lt_min (mul_pos hBalPos (by norm_num)) hMax
  have hsize : calculate_follow_size cfg denv tenv now event st =
      (.ok (min (bal * (1/10)) (effectiveMaxPosition cfg w)),
       { st with cache := cache2 }) := by
    unfold calculate_follow_size
    rw [hBal]
    simp [not_le.mpr hBalPos, hFail, hW, cap_eq_min]
  have hopen : calculate_open_params cfg denv tenv now event st =
      (.ok (min (bal * (1/10)) (effectiveMaxPosition cfg w) / p,
            if event.side = Side.LONG then OrderSide.BUY else OrderSide.SELL),
       { st with cache := cache2 }) := by
    unfold calculate_open_params
    rw [hsize]
    simp only [hPrice, if_neg (not_le.mpr husd), if_neg (not_le.mpr hp)]
  rcases hEt with h | h <;> simp only [calculate_follow_params, h, hopen]

def walletM : WalletRec := ⟨"0xcc", true, some 500⟩

def stM : EngineState := ⟨⟨[walletM], []⟩, ⟨0, 0⟩⟩

/-- Trader with balance 10000 and a market price of 100. -/
def tenvBal10k : TraderEnv :=
  ⟨.ok 10000, .ok [], fun _ => .ok (some 100),
   fun _ _ _ => .ok ⟨true, none, none, none⟩,
   fun _ => .ok ⟨true, none, none, none⟩⟩

def evOpenM : PositionEvent := ⟨EventType.OPEN, "ETH", Side.LONG, 5, 100, "0xcc"⟩

/-- Witness for C6 at the spec's numeric example: balance 10000, ratio
10 percent, per-wallet max 500 — the notional is capped at 500 (not the
uncapped 1000), and with price 100 the placed size is 5, side BUY. -/
theorem c6_open_sizing_formula_witness :
    calculate_follow_params cfg0 denvOk tenvBal10k 100 evOpenM stM =
      (.ok (5, OrderSide.BUY), ⟨stM.db, ⟨10000, 100⟩⟩) ∧
    min ((10000:ℚ) * (1/10)) 500 = 500 ∧ ((10000:ℚ) * (1/10)) = 1000 := by
  have h := c6_open_sizing_formula cfg0 denvOk tenvBal10k 100 evOpenM stM
    10000 ⟨10000, 100⟩ walletM 100 (Or.inl rfl) rfl
    (by unfold getMyBalanceStep; norm_num [cfg0, stM, tenvBal10k]) (by norm_num)
    (by decide) (by norm_num [effectiveMaxPosition, cfg0, walletM]) rfl
    (by norm_num)
  refine ⟨?_, by norm_num, by norm_num⟩
  rw [h]
  norm_num [effectiveMaxPosition, walletM, cfg0, evOpenM]

/-! ## C7 — DECREASE sizing -/

/-- C7: for a DECREASE event, if a venue position for the event's symbol
is held, the computed size is exactly half the held size and the side the
opposite of the held side; if none is held, the computed size is 0 and —
when eligibility passed — the event ends in SKIP with the zero-size
reason, so no order is attempted. -/
theorem c7_decrease_sizing (cfg : EngineCfg) (denv : DbEnv)
    (tenv : TraderEnv) (now : ℚ) (event : PositionEvent) (st : EngineState)
    (poss : List LighterPosition)
    (hEt : event.event_type = EventType.DECREASE)
    (hPos : tenv.get_positions = .ok poss) :
    (∀ pos, poss.find? (fun q => pyUpper q.symbol == pyUpper event.symbol) =
        some pos →
      calculate_follow_params cfg denv tenv now event st =
        (.ok (pos.size * (1/2),
              if pos.side = "LONG" then OrderSide.SELL else OrderSide.BUY),
         st)) ∧
    (poss.find? (fun q => pyUpper q.symbol == pyUpper event.symbol) = none →
      calculate_follow_params cfg denv tenv now event st =
        (.ok (0, OrderSide.BUY), st) ∧
      ∀ st1, should_follow cfg denv tenv now event st = (.ok (true, "OK"), st1) →
        on_wallet_event cfg denv tenv now event st =
          (⟨FollowDecision.SKIP, "計算後跟單數量為 0", none, none, none⟩, st1)) := by
  constructor
  · intro pos hfind
    simp only [calculate_follow_params, hEt, calculate_decrease_params, hPos,
      hfind]
    split <;> simp_all
  · intro hfind
    constructor
    · simp only [calculate_follow_params, hEt, calculate_decrease_params, hPos,
        hfind]
    · intro st1 hsf
      have hcalc : calculate_follow_params cfg denv tenv now event st1 =
          (.ok (0, OrderSide.BUY), st1) := by
        simp only [calculate_follow_params, hEt, calculate_decrease_params,
          hPos, hfind]
      simp only [on_wallet_event, hsf, hcalc]
      norm_num

/-- Trader holding a venue position of size 2 LONG on ETH. -/
def tenvHeld : TraderEnv :=
  ⟨.ok 10000, .ok [⟨"ETH", "LONG", 2⟩], fun _ => .ok (some 2000),
   fun _ _ _ => .ok ⟨true, none, none, none⟩,
   fun _ => .ok ⟨true, none, none, none⟩⟩

def evDecA : PositionEvent := ⟨EventType.DECREASE, "ETH", Side.LONG, 1, 2000, "0xaa"⟩

/-- Witness for C7 at the spec's example: a held mirrored size of 2.0
yields a reduce order of size 1.0 on the opposite side (SELL); with no
held position the event is skipped with the zero-size reason. -/
theorem c7_decrease_sizing_witness :
    calculate_follow_params cfg0 denvOk tenvHeld 100 evDecA st0 =
      (.ok (1, OrderSide.SELL), st0) ∧
    on_wallet_event cfg0 denvOk tenvOkOrder 100 evDecA st0 =
      (⟨FollowDecision.SKIP, "計算後跟單數量為 0", none, none, none⟩,
       ⟨dbAB, ⟨10000, 100⟩⟩) := by
  constructor
  · have h := (c7_decrease_sizing cfg0 denvOk tenvHeld 100 evDecA st0
      [⟨"ETH", "LONG", 2⟩] rfl rfl).1 ⟨"ETH", "LONG", 2⟩ (by decide)
    rw [h]
    norm_num
  · have hsf : should_follow cfg0 denvOk tenvOkOrder 100 evDecA st0 =
        (.ok (true, "OK"), ⟨dbAB, ⟨10000, 100⟩⟩) := by
      have hw : dbAB.get_wallet "0xaa" = some walletA := by decide
      have hl : check_position_lock ⟨none⟩ dbAB "ETH" "0xaa" = .ok (false, "") := by
        decide
      have hb : getMyBalanceStep 60 (.ok 10000) 100 ⟨0, 0⟩ =
          (10000, ⟨10000, 100⟩) := by
        unfold getMyBalanceStep
        norm_num
      simp only [should_follow, engine_cached_balance, denvOk, evDecA, st0,
        cfg0, tenvOkOrder, hw, hl, hb, walletA]
      norm_num
      decide
    exact ((c7_decrease_sizing cfg0 denvOk tenvOkOrder 100 evDecA st0 [] rfl
      rfl).2 rfl).2 ⟨dbAB, ⟨10000, 100⟩⟩ hsf

/-- Witness for C4: a rejected market order on an OPEN event yields ERROR
with the order error and an unchanged state; a close call that raises on
a CLOSE event yields ERROR with the exception text and an unchanged
state. -/
theorem c4_failed_execution_preserves_state_witness :
    execute_follow denvOk tenvFailOrder evOpenA (1/2) OrderSide.BUY st0 =
      (⟨FollowDecision.ERROR, "下單失敗: insufficient margin", none, none,
        some ⟨false, none, none, some "insufficient margin"⟩⟩, st0) ∧
    execute_follow denvOk tenvFailOrder evCloseA 1 OrderSide.SELL st0 =
      (⟨FollowDecision.ERROR, "boom", none, none, none⟩, st0) := by
  constructor
  · exact (c4_failed_execution_preserves_state denvOk tenvFailOrder evOpenA (1/2)
      OrderSide.BUY st0).2 ⟨false, none, none, some "insufficient margin"⟩
      rfl rfl
  · exact (c4_failed_execution_preserves_state denvOk tenvFailOrder evCloseA 1
      OrderSide.SELL st0).1 "boom" rfl

/-! ## C8 — balance cache (corrected) -/

/-- A venue whose every remote call fails. -/
def venvDown : VenueEnv :=
  ⟨fun _ => .error "network unreachable",
   fun _ _ => .error "network unreachable",
   fun _ => .error "network unreachable"⟩

/-- Counterexample to C8 as stated: with a last-known balance of 100 and
an expired cache, a refresh whose underlying account query fails on every
attempt does NOT return the previously known value — the concrete
`get_balance` converts the failure into `0` (never raising), so `0` is
returned and cached.  The `except` fallback in `_get_my_balance` never
sees the failure. -/
theorem c8_refresh_failure_counterexample :
    engine_refresh venvDown 5 60 61 ⟨100, 0⟩ = (0, ⟨0, 61⟩) ∧ (0 : ℚ) ≠ 100 := by
  constructor
  · have hgb : get_balance venvDown 5 = 0 := by decide
    unfold engine_refresh getMyBalanceStep
    rw [hgb]
    norm_num
  · norm_num

/-- C8 amended: the balance is refreshed at most once per TTL — a read
within the interval returns the cached value with no state change for any
outcome of `get_balance`; a refresh during which `get_balance` raises
falls back to the previous value; BUT a remote account-query failure does
not raise: `get_balance` returns 0, so an expired-cache read during an
outage returns and caches 0 instead of the previous value. -/
theorem c8_balance_cache_amended (cache_seconds now : ℚ)
    (gb : Except String ℚ) (c : BalCache) (venv : VenueEnv) (N : Nat) :
    (now - c.updated_at ≤ cache_seconds →
      getMyBalanceStep cache_seconds gb now c = (c.my_balance, c)) ∧
    (∀ e, gb = .error e →
      getMyBalanceStep cache_seconds gb now c = (c.my_balance, c)) ∧
    (1 ≤ N → (∀ i, 1 ≤ i → i ≤ N → ∃ e, venv.accountAttempts i = .error e) →
      get_balance venv N = 0 ∧
      (cache_seconds < now - c.updated_at →
        engine_refresh venv N cache_seconds now c = (0, ⟨0, now⟩))) := by
  refine ⟨?_, ?_, ?_⟩
  · intro h
    unfold getMyBalanceStep
    rw [if_neg (not_lt.mpr h)]
  · intro e he
    unfold getMyBalanceStep
    split <;> simp [he]
  · intro hN hfail
    have hop : ∀ i, 1 ≤ i → i ≤ N → venv.accountAttempts i =
        .error (if h : 1 ≤ i ∧ i ≤ N then (hfail i h.1 h.2).choose else "") := by
      intro i h1 h2
      rw [dif_pos ⟨h1, h2⟩]
      exact (hfail i h1 h2).choose_spec
    have hretry := retry_aux_all_fail venv.accountAttempts
      (fun i => if h : 1 ≤ i ∧ i ≤ N then (hfail i h.1 h.2).choose else "")
      N 1 none hN (fun i hi1 hi2 => hop i hi1 (by omega))
    have hga : get_account_info venv N = none := by
      unfold get_account_info retry_operation
      rw [hretry]
    have hgb : get_balance venv N = 0 := by
      unfold get_balance
      rw [hga]
    refine ⟨hgb, fun hlt => ?_⟩
    unfold engine_refresh getMyBalanceStep
    rw [if_pos hlt, hgb]

/-- Witness for C8 amended: a within-interval read keeps the value 100; a
raising `get_balance` keeps 100; the composed refresh during an outage
returns 0. -/
theorem c8_balance_cache_amended_witness :
    getMyBalanceStep 60 (.error "oops") 50 ⟨100, 0⟩ = (100, ⟨100, 0⟩) ∧
    get_balance venvDown 5 = 0 ∧
    engine_refresh venvDown 5 60 61 ⟨100, 0⟩ = (0, ⟨0, 61⟩) := by
  refine ⟨(c8_balance_cache_amended 60 50 (.error "oops") ⟨100, 0⟩ venvDown
    5).2.1 "oops" rfl, ?_, ?_⟩
  · exact ((c8_balance_cache_amended 60 61 (.ok 0) ⟨100, 0⟩ venvDown 5).2.2
      (by norm_num) (fun i h1 h2 => ⟨"network unreachable", rfl⟩)).1
  · exact ((c8_balance_cache_amended 60 61 (.ok 0) ⟨100, 0⟩ venvDown 5).2.2
      (by norm_num) (fun i h1 h2 => ⟨"network unreachable", rfl⟩)).2
      (by norm_num)

/-! ## C9 — totality of `on_wallet_event` (corrected) -/

/-- A lock reason produced for a locked symbol is never empty. -/
theorem lock_reason_ne_empty (denv : DbEnv) (db : Db) (s w r : String)
    (h : check_position_lock denv db s w = .ok (true, r)) : r ≠ "" := by
  unfold check_position_lock at h
  split at h
  · exact absurd h (by simp)
  · split at h
    · exact absurd h (by simp)
    · split at h
      · exact absurd h (by simp)
      · have h2 := h
        simp only [Except.ok.injEq, Prod.mk.injEq, true_and] at h2
        rw [← h2]
        unfold addrShort
        exact append_ne_empty_right _ _ (append_ne_empty_right _ _ (by decide))

/-- Shape of `should_follow`: it either raises, or accepts with reason
`"OK"`, or declines with a non-empty reason. -/
theorem should_follow_shape (cfg : EngineCfg) (denv : DbEnv)
    (tenv : TraderEnv) (now : ℚ) (event : PositionEvent) (st : EngineState) :
    (∃ m st1, should_follow cfg denv tenv now event st = (.error m, st1)) ∨
    (∃ st1, should_follow cfg denv tenv now event st = (.ok (true, "OK"), st1)) ∨
    (∃ r st1, should_follow cfg denv tenv now event st = (.ok (false, r), st1) ∧
      r ≠ "") := by
  unfold should_follow
  split
  · exact Or.inl ⟨_, st, rfl⟩
  · split
    · refine Or.inr (Or.inr ⟨_, st, rfl, ?_⟩)
      unfold addrShort
      exact append_ne_empty_right _ _ (append_ne_empty_right _ _ (by decide))
    · split
      · refine Or.inr (Or.inr ⟨_, st, rfl, ?_⟩)
        unfold addrShort
        exact append_ne_empty_right _ _ (append_ne_empty_right _ _ (by decide))
      · split
        · exact Or.inl ⟨_, st, rfl⟩
        · split
          · next is_locked lock_reason heq hlk =>
            exact Or.inr (Or.inr ⟨_, st, rfl,
              lock_reason_ne_empty denv st.db event.symbol
                event.wallet_address lock_reason (hlk ▸ heq)⟩)
          · split
            · exact Or.inr (Or.inr ⟨_, _, rfl, by decide⟩)
            · split
              · exact Or.inr (Or.inr ⟨_, _, rfl, by decide⟩)
              · exact Or.inr (Or.inl ⟨_, rfl⟩)

/-- The decision of `execute_follow` is FOLLOW or ERROR, never SKIP or
REJECT. -/
theorem execute_follow_decision (denv : DbEnv) (tenv : TraderEnv)
    (event : PositionEvent) (size : ℚ) (side : OrderSide) (st : EngineState) :
    (execute_follow denv tenv event size side st).1.decision =
      FollowDecision.FOLLOW ∨
    (execute_follow denv tenv event size side st).1.decision =
      FollowDecision.ERROR := by
  unfold execute_follow
  split
  · exact Or.inr rfl
  · split
    · exact Or.inl rfl
    · exact Or.inr rfl

/-- C9 amended: `on_wallet_event` is total — every internal failure is
converted to a returned `FollowResult` — its decision is never REJECT,
and every SKIP carries a non-empty reason.  (An ERROR's reason is the
raised exception's message verbatim, which can be empty when the message
is empty; see the counterexample.) -/
theorem c9_total_and_skip_reasons (cfg : EngineCfg) (denv : DbEnv)
    (tenv : TraderEnv) (now : ℚ) (event : PositionEvent) (st : EngineState) :
    ((on_wallet_event cfg denv tenv now event st).1.decision =
        FollowDecision.SKIP →
      (on_wallet_event cfg denv tenv now event st).1.reason ≠ "") ∧
    (on_wallet_event cfg denv tenv now event st).1.decision ≠
      FollowDecision.REJECT := by
  unfold on_wallet_event
  rcases should_follow_shape cfg denv tenv now event st with
    ⟨m, st1, h⟩ | ⟨st1, h⟩ | ⟨r, st1, h, hr⟩
  · rw [h]
    exact ⟨by simp, by simp⟩
  · rw [h]
    rcases hc : calculate_follow_params cfg denv tenv now event st1 with ⟨res, st2⟩
    cases res with
    | error m =>
      simp only [hc]
      exact ⟨by simp, by simp⟩
    | ok p =>
      obtain ⟨size, side⟩ := p
      by_cases hsz : size ≤ 0
      · simp only [hc, if_pos hsz]
        exact ⟨fun _ => by decide, by simp⟩
      · simp only [hc, if_neg hsz]
        rcases execute_follow_decision denv tenv event size side st2 with hd | hd
        · exact ⟨fun h' => absurd (hd ▸ h') (by simp), by simp [hd]⟩
        · exact ⟨fun h' => absurd (hd ▸ h') (by simp), by simp [hd]⟩
  · rw [h]
    exact ⟨fun _ => hr, by simp⟩

/-- Counterexample to C9 as stated: an internal store failure whose
exception message is empty is returned as an ERROR result whose reason is
the empty string — not a non-empty human-readable string. -/
theorem c9_empty_reason_counterexample :
    (on_wallet_event cfg0 ⟨some ""⟩ tenvOkOrder 100 evOpenA st0).1.decision =
      FollowDecision.ERROR ∧
    (on_wallet_event cfg0 ⟨some ""⟩ tenvOkOrder 100 evOpenA st0).1.reason = "" := by
  constructor <;> rfl

/-- Witness for C9 amended, instantiated at a concrete event that is
skipped (disabled wallet): the SKIP reason is non-empty and the decision
is not REJECT. -/
theorem c9_total_and_skip_reasons_witness :
    ((on_wallet_event cfg0 denvOk tenvOkOrder 100 evOpenA
        ⟨⟨[⟨"0xaa", false, none⟩], []⟩, ⟨0, 0⟩⟩).1.decision =
      FollowDecision.SKIP →
      (on_wallet_event cfg0 denvOk tenvOkOrder 100 evOpenA
        ⟨⟨[⟨"0xaa", false, none⟩], []⟩, ⟨0, 0⟩⟩).1.reason ≠ "") ∧
    (on_wallet_event cfg0 denvOk tenvOkOrder 100 evOpenA
        ⟨⟨[⟨"0xaa", false, none⟩], []⟩, ⟨0, 0⟩⟩).1.decision ≠
      FollowDecision.REJECT ∧
    (on_wallet_event cfg0 denvOk tenvOkOrder 100 evOpenA
        ⟨⟨[⟨"0xaa", false, none⟩], []⟩, ⟨0, 0⟩⟩).1.decision =
      FollowDecision.SKIP := by
  refine ⟨(c9_total_and_skip_reasons cfg0 denvOk tenvOkOrder 100 evOpenA
    ⟨⟨[⟨"0xaa", false, none⟩], []⟩, ⟨0, 0⟩⟩).1,
    (c9_total_and_skip_reasons cfg0 denvOk tenvOkOrder 100 evOpenA
    ⟨⟨[⟨"0xaa", false, none⟩], []⟩, ⟨0, 0⟩⟩).2, ?_⟩
  decide

/-! ## C10 — market-index gating (corrected) -/

/-- Suffix stripping as the claim words it: remove the given suffix only
when the string actually ends with it.  This definition follows the
claim's words, to be compared with the source-derived `cleanSymbol`. -/
def specStripSuffix (s suf : String) : String :=
  if suf.data.isSuffixOf s.data then ⟨s.data.take (s.data.length - suf.data.length)⟩
  else s

/-- The claim's cleaned form: the suffixes `-PERP`, `/USDC`, `-USD`
stripped, upper-cased. -/
def specCleanSymbol (s : String) : String :=
  specStripSuffix (specStripSuffix (specStripSuffix (pyUpper s) "-PERP") "/USDC")
    "-USD"

/-- A live venue: the account query fails but market 0 has an order book
with best bid 100 and best ask 102 (prices after the source's decimal
parsing), and order submission succeeds with code 200. -/
def venvLive : VenueEnv :=
  ⟨fun _ => .error "down",
   fun _ _ => .ok ⟨[⟨100⟩], [⟨102⟩]⟩,
   fun _ => .ok ⟨none, some ⟨200, none⟩⟩⟩

/-- Counterexample to C10 as stated: the code cleans symbols with
`str.replace`, which removes the substrings anywhere, not only as
suffixes.  `"BT-PERPC"` contains no listed suffix, so under the claim's
cleaning it stays `"BT-PERPC"` — outside {BTC, ETH} — and
`get_market_price` should return `None`; but the code cleans it to
`"BTC"`, queries market 0 and returns the mid price 101. -/
theorem c10_replace_not_suffix_counterexample :
    specCleanSymbol "BT-PERPC" = "BT-PERPC" ∧
    (MARKET_INDEX.find? (fun kv => kv.1 == specCleanSymbol "BT-PERPC")) = none ∧
    cleanSymbol "BT-PERPC" = "BTC" ∧
    get_market_price venvLive 5 "BT-PERPC" = some 101 := by
  refine ⟨by decide, by decide, by decide, ?_⟩
  have hmi : get_market_index "BT-PERPC" = .ok 0 := by decide
  have hr : retry_operation (venvLive.orderbookAttempts 0) 5 =
      .ok ⟨[⟨100⟩], [⟨102⟩]⟩ := by decide
  unfold get_market_price
  simp only [hmi, hr]
  norm_num [truthyQ]

/-- C10 amended: the static map is exactly {BTC ↦ 0, ETH ↦ 1}, and for
every symbol whose `str.replace`-cleaned form (occurrences of `-PERP`,
`/USDC`, `-USD` removed anywhere, after upper-casing) is not in the map,
`get_market_price` returns `None` (it does not raise) and
`place_market_order` returns `success = False` with the unknown-symbol
error — for any venue state, without generating a client order index, so
no order is ever submitted for such a symbol. -/
theorem c10_unmapped_symbol_amended (symbol : String) (venv : VenueEnv)
    (N counter : Nat) (side : OrderSide) (size slip : ℚ)
    (h : MARKET_INDEX.find? (fun kv => kv.1 == cleanSymbol symbol) = none) :
    get_market_price venv N symbol = none ∧
    place_market_order venv N counter symbol side size slip =
      (⟨false, none, none, some ("未知的交易對: " ++ symbol)⟩, counter) ∧
    MARKET_INDEX = [("BTC", 0), ("ETH", 1)] := by
  have hmi : get_market_index symbol = .error ("未知的交易對: " ++ symbol) := by
    unfold get_market_index
    rw [h]
  refine ⟨?_, ?_, rfl⟩
  · unfold get_market_price
    rw [hmi]
  · unfold place_market_order
    rw [hmi]

/-- Witness for C10 amended at symbol `DOGE`: its cleaned form is `DOGE`,
unmapped, so the price query yields `None` and the order call fails with
the unknown-symbol error, leaving the order counter untouched. -/
theorem c10_unmapped_symbol_amended_witness :
    get_market_price venvLive 5 "DOGE" = none ∧
    place_market_order venvLive 5 7 "DOGE" OrderSide.BUY 1 (1/100) =
      (⟨false, none, none, some "未知的交易對: DOGE"⟩, 7) := by
  have h := c10_unmapped_symbol_amended "DOGE" venvLive 5 7 OrderSide.BUY 1
    (1/100) (by decide)
  exact ⟨h.1, h.2.1⟩

end HyperTrack
